import Mathlib

/-!
Shallow embedding of the `blister` XMP namespace core
(`src/lib/blister/xmp/namespace.pyx`, final variant, lines 90-167) and of
the `XMP` default-namespace lookup collaborator
(`src/unnamed/part_001`, first variant, lines 20-52).

Values stored in a namespace are modelled by the closed scalar universe
(string / integer / boolean) that the spec's data model prescribes for the
store; the declared per-key types range over the same three Python types.
Python exceptions are modelled with `Except`; a caught exception is a
matched `Except.error`.
-/

deriving instance DecidableEq for Except

/-- The Python types that can appear in a `types` declaration:
`str`, `int`, `bool`. -/
inductive PyType where
  | str
  | int
  | bool
deriving DecidableEq

/-- A Python scalar value as stored in a namespace's internal dict. -/
inductive PyVal where
  | str (s : String)
  | int (n : Int)
  | bool (b : Bool)
deriving DecidableEq

/-- Python `type(v)` restricted to the scalar universe. -/
def typeOf : PyVal → PyType
  | .str _ => .str
  | .int _ => .int
  | .bool _ => .bool

/-- Python `str(v)` on scalars (`str` is the identity on strings,
renders integers in decimal with a leading minus for negatives, and
renders booleans as `True` / `False`). Never raises. -/
def pyStr : PyVal → String
  | .str s => s
  | .int n => toString n
  | .bool b => if b then "True" else "False"

/-- Python truthiness, as used by `bool(v)`: a string is truthy iff
non-empty, an integer iff non-zero. Never raises. -/
def truthy : PyVal → Bool
  | .str s => s != ""
  | .int n => n != 0
  | .bool b => b

/-- ASCII decimal digits, the character class `[0-9]`. -/
def isDigit09 (c : Char) : Bool := '0' ≤ c && c ≤ '9'

/-- ASCII lowercase letters, the character class `[a-z]`. -/
def isLowerAZ (c : Char) : Bool := 'a' ≤ c && c ≤ 'z'

/-- ASCII uppercase letters, the character class `[A-Z]`. -/
def isUpperAZ (c : Char) : Bool := 'A' ≤ c && c ≤ 'Z'

/-- ASCII whitespace stripped by Python `int(str)`. -/
def isPySpace (c : Char) : Bool :=
  c == ' ' || c == '\t' || c == '\n' || c == '\r'

/-- Digits of a decimal numeral read into a `Nat`; `none` unless the
character list is a non-empty run of digits. -/
def digitsToNat (cs : List Char) : Option Nat :=
  if cs != [] && cs.all isDigit09 then
    some (cs.foldl (fun acc c => acc * 10 + (c.toNat - 48)) 0)
  else
    none

/-- Python `int(s)` on a string: surrounding whitespace is stripped, then
an optional sign followed by a non-empty digit run is accepted; anything
else raises `ValueError` (modelled as `none`).  (CPython also accepts
underscore digit separators; no input relevant here contains them.) -/
def parseIntPy (s : String) : Option Int :=
  let cs := (((s.data.dropWhile isPySpace).reverse.dropWhile isPySpace).reverse)
  match cs with
  | '-' :: ds => (digitsToNat ds).map (fun n => -(n : Int))
  | '+' :: ds => (digitsToNat ds).map (fun n => (n : Int))
  | ds => (digitsToNat ds).map (fun n => (n : Int))

/-- The `ValueError` a Python type constructor call can raise. -/
inductive PyValueError where
  | valueError
deriving DecidableEq

/-- Calling a Python type on a scalar value, `T(v)`, as in
`self.types[key](self[key])`:
`str(v)` and `bool(v)` always succeed; `int` of an integer is the
identity, `int` of a boolean gives 0 or 1, and `int` of a string parses
it or raises `ValueError`. -/
def tryConstruct (T : PyType) (v : PyVal) : Except PyValueError PyVal :=
  match T with
  | .str => .ok (.str (pyStr v))
  | .bool => .ok (.bool (truthy v))
  | .int =>
    match v with
    | .int n => .ok (.int n)
    | .bool b => .ok (.int (if b then 1 else 0))
    | .str s =>
      match parseIntPy s with
      | some n => .ok (.int n)
      | none => .error .valueError

/-! ### Python dict on string keys

The internal store `self.__internal` is a Python dict.  It is modelled as
an insertion-ordered association list whose keys the dict operations keep
distinct: lookup takes the first binding, assignment overwrites in place
or appends, deletion removes the bindings of the key. -/

/-- `d[k]` as a total lookup: `some` of the first binding of `k`,
`none` when `k` is absent (where Python raises `KeyError`). -/
def dictGet {α : Type} (d : List (String × α)) (k : String) : Option α :=
  match d with
  | [] => none
  | (k', v) :: rest => if k' = k then some v else dictGet rest k

/-- `d[k] = v`: overwrite the existing binding in place, or append a new
binding at the end, as a Python dict does. -/
def dictSet {α : Type} (d : List (String × α)) (k : String) (v : α) :
    List (String × α) :=
  match d with
  | [] => [(k, v)]
  | (k', v') :: rest =>
    if k' = k then (k', v) :: rest else (k', v') :: dictSet rest k v

/-- `del d[k]` on a present key: remove the bindings of `k`. -/
def dictDel {α : Type} (d : List (String × α)) (k : String) :
    List (String × α) :=
  d.filter (fun e => e.1 != k)

/-! ### The camel-case prefix pipeline

`camel_convert` applies `re_full_word = (.)([A-Z][a-z]+)` and then
`re_other_word = ([a-z0-9])([A-Z])`, each with the replacement `\1-\2`,
and lowercases the result.  `re.sub` replaces the leftmost
non-overlapping matches, scanning left to right and resuming after each
match; this is transcribed below as fuel-indexed structural recursion
(each step consumes at least one character, so the length of the string
is enough fuel). -/

/-- Whether the next character exists and is lowercase: the `[a-z]+`
atom can start here. -/
def headIsLower : List Char → Bool
  | [] => false
  | c :: _ => isLowerAZ c

/-- One left-to-right `re.sub` pass of `(.)([A-Z][a-z]+)` with
replacement `\1-\2`: at each position, `.` matches any character but a
newline, `[A-Z]` one uppercase letter, `[a-z]+` greedily a non-empty
lowercase run; a match is rewritten and scanning resumes after it. -/
def subFullWordGo (fuel : Nat) (cs : List Char) : List Char :=
  match fuel, cs with
  | 0, cs => cs
  | _ + 1, [] => []
  | _ + 1, [c] => [c]
  | fuel + 1, c1 :: c2 :: rest =>
    if c1 != '\n' && isUpperAZ c2 && headIsLower rest then
      c1 :: '-' :: c2 ::
        (rest.takeWhile isLowerAZ ++ subFullWordGo fuel (rest.dropWhile isLowerAZ))
    else
      c1 :: subFullWordGo fuel (c2 :: rest)

/-- `re_full_word.sub(r"\1-\2", s)` over the characters of `s`. -/
def subFullWord (cs : List Char) : List Char := subFullWordGo cs.length cs

/-- One left-to-right `re.sub` pass of `([a-z0-9])([A-Z])` with
replacement `\1-\2`; after a match scanning resumes after the uppercase
letter. -/
def subOtherWordGo (fuel : Nat) (cs : List Char) : List Char :=
  match fuel, cs with
  | 0, cs => cs
  | _ + 1, [] => []
  | _ + 1, [c] => [c]
  | fuel + 1, c1 :: c2 :: rest =>
    if (isLowerAZ c1 || isDigit09 c1) && isUpperAZ c2 then
      c1 :: '-' :: c2 :: subOtherWordGo fuel rest
    else
      c1 :: subOtherWordGo fuel (c2 :: rest)

/-- `re_other_word.sub(r"\1-\2", s)` over the characters of `s`. -/
def subOtherWord (cs : List Char) : List Char := subOtherWordGo cs.length cs

/-- `camel_convert`: rule B (`re_full_word`), then rule A
(`re_other_word`), then `.lower()`. -/
def camel_convert (s : String) : String :=
  String.mk ((subOtherWord (subFullWord s.data)).map Char.toLower)

/-- Python `str.split("-")`: split on every hyphen, keeping empty words
(so the empty string splits to one empty word). -/
def splitHyph : List Char → List (List Char)
  | [] => [[]]
  | c :: rest =>
    if c = '-' then
      [] :: splitHyph rest
    else
      match splitHyph rest with
      | [] => [[c]]
      | w :: ws => (c :: w) :: ws

/-- Python `"-".join(words)`. -/
def joinHyph : List (List Char) → List Char
  | [] => []
  | [w] => w
  | w :: ws => w ++ '-' :: joinHyph ws

/-- The `prefix` property's derivation from a class name: split the
camel-converted name on `-`, drop every word equal to `namespace`,
rejoin with `-`. -/
def derivePrefix (className : String) : String :=
  String.mk
    (joinHyph
      ((splitHyph (camel_convert className).data).filter
        (fun w => w != "namespace".data)))

/-! ### The validated namespace -/

/-- The class-level declaration of a namespace kind: the class name and
the `uri`, `types`, `required` class constants (`uri = None`,
`types = { }`, `required = ( )` being the base-class defaults). -/
structure NSClass where
  className : String
  uri : Option String := none
  types : List (String × PyType) := []
  required : List String := []
deriving DecidableEq

/-- The `XMPNamespace.NoURI` error raised by `__init__` when the class
declares no `uri`. -/
inductive NoURI where
  | noURI
deriving DecidableEq

/-- The `KeyError` raised by `__getitem__` / `__delitem__` on a missing
key; it carries the key. -/
inductive KeyError where
  | keyNotFound (key : String)
deriving DecidableEq

/-- An `XMPNamespace` instance: its class declaration and the
`self.__internal` store. -/
structure XMPNamespace where
  cls : NSClass
  store : List (String × PyVal)
deriving DecidableEq

/-- `__init__`: raise `NoURI` when the class declares no `uri`;
otherwise the instance starts with an empty store.  A raised error
carries no instance, so a failed construction leaves no state. -/
def XMPNamespace.init (c : NSClass) : Except NoURI XMPNamespace :=
  match c.uri with
  | none => .error .noURI
  | some _ => .ok ⟨c, []⟩

/-- `__getitem__`: the stored value, or `KeyError` when absent. -/
def XMPNamespace.getItem (ns : XMPNamespace) (k : String) :
    Except KeyError PyVal :=
  match dictGet ns.store k with
  | some v => .ok v
  | none => .error (.keyNotFound k)

/-- `__setitem__`: unconditional insert-or-overwrite; total. -/
def XMPNamespace.setItem (ns : XMPNamespace) (k : String) (v : PyVal) :
    XMPNamespace :=
  { ns with store := dictSet ns.store k v }

/-- `__delitem__`: remove the key, or `KeyError` when absent. -/
def XMPNamespace.delItem (ns : XMPNamespace) (k : String) :
    Except KeyError XMPNamespace :=
  match dictGet ns.store k with
  | some _ => .ok { ns with store := dictDel ns.store k }
  | none => .error (.keyNotFound k)

/-- `__can_convert_to_correct_type`: call `self.types[key](self[key])`
inside `try`, catching `ValueError` as `False`.  Both lookups succeed at
every call site (`__is_valid_key` has already checked the key), so the
fall-through arm is unreachable from `is_valid`. -/
def XMPNamespace.canConvertToCorrectType (ns : XMPNamespace) (k : String) :
    Bool :=
  match dictGet ns.cls.types k, dictGet ns.store k with
  | some T, some v =>
    match tryConstruct T v with
    | .ok _ => true
    | .error .valueError => false
  | _, _ => false

/-- `__is_valid_key`: undeclared keys are invalid; otherwise an exact
`type(...) ==` match passes, and failing that the coercion attempt
decides.  The store lookup is on a key obtained by iterating the store,
so its `none` arm is unreachable from `is_valid`. -/
def XMPNamespace.isValidKey (ns : XMPNamespace) (k : String) : Bool :=
  match dictGet ns.cls.types k with
  | none => false
  | some T =>
    match dictGet ns.store k with
    | none => false
    | some v => if typeOf v = T then true else ns.canConvertToCorrectType k

/-- `__all_keys_are_valid`: every iterated store key is valid. -/
def XMPNamespace.allKeysAreValid (ns : XMPNamespace) : Bool :=
  ns.store.all (fun e => ns.isValidKey e.1)

/-- `__all_required_keys_are_present`: every required key is in the
store. -/
def XMPNamespace.allRequiredKeysArePresent (ns : XMPNamespace) : Bool :=
  ns.cls.required.all (fun k => (dictGet ns.store k).isSome)

/-- `is_valid`: all keys valid and all required keys present. -/
def XMPNamespace.is_valid (ns : XMPNamespace) : Bool :=
  ns.allKeysAreValid && ns.allRequiredKeysArePresent

/-- `prefix` recomputed from the concrete class's name. -/
def XMPNamespace.nsPrefix (ns : XMPNamespace) : String :=
  derivePrefix ns.cls.className

/-! ### Method calls as state transitions

Each mapping method reads the instance and, except for `__setitem__` and
`__delitem__`, leaves it unchanged; a raised `KeyError` propagates to the
caller with the instance as it was.  `runOp` packages each call as a
result paired with the instance afterwards. -/

/-- One mapping-interface call. -/
inductive NSOp where
  | getOp (k : String)
  | setOp (k : String) (v : PyVal)
  | delOp (k : String)
  | validOp
  | lenOp
deriving DecidableEq

/-- A call's returned value. -/
inductive NSRes where
  | valRes (v : PyVal)
  | noneRes
  | boolRes (b : Bool)
  | natRes (n : Nat)
deriving DecidableEq

/-- Execute one call: the outcome and the instance afterwards. -/
def XMPNamespace.runOp (ns : XMPNamespace) (op : NSOp) :
    Except KeyError NSRes × XMPNamespace :=
  match op with
  | .getOp k =>
    match ns.getItem k with
    | .ok v => (.ok (.valRes v), ns)
    | .error e => (.error e, ns)
  | .setOp k v => (.ok .noneRes, ns.setItem k v)
  | .delOp k =>
    match ns.delItem k with
    | .ok ns' => (.ok .noneRes, ns')
    | .error e => (.error e, ns)
  | .validOp => (.ok (.boolRes ns.is_valid), ns)
  | .lenOp => (.ok (.natRes ns.store.length), ns)

/-! ### The `XMP` collaborator (`src/unnamed/part_001`, first variant) -/

/-- `DEFAULT_XMP_NAMESPACES`, the fixed set of recognized default
namespace names. -/
def DEFAULT_XMP_NAMESPACES : List String :=
  ["stRef", "dc", "xmp", "xmpRights", "xmpMM", "xmpidq", "exifEX",
   "exif", "tiff"]

/-- The two errors `XMP` lookups raise: `KeyError(key)` from
`__getitem__` and `AttributeError(message)` from `raise_error_no_attr`. -/
inductive XMPLookupError where
  | keyError (key : String)
  | attributeError (message : String)
deriving DecidableEq

/-- Whether a lookup outcome is the attribute-not-found condition. -/
def isAttributeError {α : Type} : Except XMPLookupError α → Bool
  | .error (.attributeError _) => true
  | _ => false

/-- `XMP.__getitem__`: the empty tuple for a recognized default name,
`KeyError(key)` otherwise. -/
def xmpGetItem (key : String) : Except XMPLookupError (List PyVal) :=
  if DEFAULT_XMP_NAMESPACES.contains key then .ok [] else .error (.keyError key)

/-- Python `repr` of a string with no quotes or escapes in it: wrap in
single quotes.  Every name this file applies it to is of that shape. -/
def pyReprStr (s : String) : String := "'" ++ s ++ "'"

/-- The `raise_error_no_attr` message:
`"{!r} object has no attribute {!r}"` of the qualified class name
(`module.XMP`, the module name being fixed at load time) and the
requested name. -/
def noAttrMessage (module : String) (name : String) : String :=
  pyReprStr (module ++ "." ++ "XMP") ++ " object has no attribute " ++
    pyReprStr name

/-- `XMP.__getattr__`: delegate to `__getitem__`, turning its `KeyError`
into the `AttributeError` built by `raise_error_no_attr`. -/
def xmpGetAttr (module : String) (name : String) :
    Except XMPLookupError (List PyVal) :=
  match xmpGetItem name with
  | .ok v => .ok v
  | .error _ => .error (.attributeError (noAttrMessage module name))

/-! ### Dictionary lemmas -/

/-- After `d[k] = v`, looking up `k` finds `v`. -/
theorem dictGet_dictSet_self {α : Type} (d : List (String × α)) (k : String)
    (v : α) : dictGet (dictSet d k v) k = some v := by
  induction d with
  | nil => simp [dictGet, dictSet]
  | cons e rest ih =>
    obtain ⟨k0, v0⟩ := e
    by_cases h : k0 = k
    · subst h
      simp [dictGet, dictSet]
    · simp [dictGet, dictSet, h, ih]

/-- `d[k] = v` does not change the binding of any other key. -/
theorem dictGet_dictSet_ne {α : Type} (d : List (String × α)) (k k' : String)
    (v : α) (h : k' ≠ k) :
    dictGet (dictSet d k v) k' = dictGet d k' := by
  have hne : ¬k = k' := fun hh => h hh.symm
  induction d with
  | nil => simp [dictGet, dictSet, hne]
  | cons e rest ih =>
    obtain ⟨k0, v0⟩ := e
    by_cases h0 : k0 = k
    · subst h0
      simp [dictGet, dictSet, hne]
    · simp [dictGet, dictSet, h0, ih]

/-- After `del d[k]`, the key `k` is absent. -/
theorem dictGet_dictDel_self {α : Type} (d : List (String × α)) (k : String) :
    dictGet (dictDel d k) k = none := by
  induction d with
  | nil => simp [dictDel, dictGet]
  | cons e rest ih =>
    obtain ⟨k0, v0⟩ := e
    by_cases h : k0 = k
    · subst h
      simpa [dictDel, List.filter_cons] using ih
    · simpa [dictDel, List.filter_cons, h, dictGet] using ih

/-- A key that looks up successfully has a binding in the list. -/
theorem dictGet_mem {α : Type} {d : List (String × α)} {k : String} {v : α}
    (h : dictGet d k = some v) : ∃ p ∈ d, p.1 = k := by
  induction d with
  | nil => simp [dictGet] at h
  | cons e rest ih =>
    obtain ⟨k0, v0⟩ := e
    by_cases h0 : k0 = k
    · exact ⟨(k0, v0), List.mem_cons_self _ _, h0⟩
    · rw [dictGet, if_neg h0] at h
      obtain ⟨p, hp, hpk⟩ := ih h
      exact ⟨p, List.mem_cons_of_mem _ hp, hpk⟩

/-- `__is_valid_key` is true exactly when the key is declared, stored,
and the stored value matches the declared type or coerces to it. -/
theorem isValidKey_iff (ns : XMPNamespace) (k : String) :
    ns.isValidKey k = true ↔
      ∃ T v, dictGet ns.cls.types k = some T ∧ dictGet ns.store k = some v ∧
        (typeOf v = T ∨ ∃ w, tryConstruct T v = Except.ok w) := by
  unfold XMPNamespace.isValidKey XMPNamespace.canConvertToCorrectType
  cases hT : dictGet ns.cls.types k with
  | none => simp
  | some T =>
    cases hS : dictGet ns.store k with
    | none => simp
    | some v =>
      by_cases he : typeOf v = T
      · simp [he]
      · cases hc : tryConstruct T v with
        | ok w => simp [he, hc]
        | error e => simp [he, hc]

/-! ### Claim theorems -/

/-- C1: `is_valid()` is true iff every stored key is declared in `types`
with a stored value whose runtime type equals the declared type exactly
or which the declared type constructs from without a value-format error,
and every required key is present in the store. -/
theorem is_valid_characterization (ns : XMPNamespace) :
    ns.is_valid = true ↔
      ((∀ k ∈ ns.store.map Prod.fst,
          ∃ T v, dictGet ns.cls.types k = some T ∧
            dictGet ns.store k = some v ∧
            (typeOf v = T ∨ ∃ w, tryConstruct T v = Except.ok w)) ∧
        (∀ k ∈ ns.cls.required, ∃ v, dictGet ns.store k = some v)) := by
  simp only [XMPNamespace.is_valid, XMPNamespace.allKeysAreValid,
    XMPNamespace.allRequiredKeysArePresent, Bool.and_eq_true,
    List.all_eq_true]
  constructor
  · rintro ⟨h1, h2⟩
    refine ⟨?_, ?_⟩
    · intro k hk
      rw [List.mem_map] at hk
      obtain ⟨e, he, rfl⟩ := hk
      exact (isValidKey_iff ns e.1).mp (h1 e he)
    · intro k hk
      simpa [Option.isSome_iff_exists] using h2 k hk
  · rintro ⟨h1, h2⟩
    refine ⟨?_, ?_⟩
    · intro e he
      exact (isValidKey_iff ns e.1).mpr
        (h1 e.1 (List.mem_map.mpr ⟨e, he, rfl⟩))
    · intro k hk
      simpa [Option.isSome_iff_exists] using h2 k hk

/-- C1 witness: the characterization applied to a concrete valid
instance. -/
theorem is_valid_characterization_witness :
    (∀ k ∈ (XMPNamespace.mk
        ⟨"DCNamespace", some "u", [("lang", PyType.str)], ["lang"]⟩
        [("lang", PyVal.str "en")]).store.map Prod.fst,
      ∃ T v, dictGet [("lang", PyType.str)] k = some T ∧
        dictGet [("lang", PyVal.str "en")] k = some v ∧
        (typeOf v = T ∨ ∃ w, tryConstruct T v = Except.ok w)) ∧
    (∀ k ∈ ["lang"], ∃ v, dictGet [("lang", PyVal.str "en")] k = some v) :=
  (is_valid_characterization
    (XMPNamespace.mk ⟨"DCNamespace", some "u", [("lang", PyType.str)], ["lang"]⟩
      [("lang", PyVal.str "en")])).mp (by decide)

/-- C2: the derived prefix comes from applying boundary rule B
(`re_full_word`), then boundary rule A (`re_other_word`), then
lowercasing, splitting on the separator, dropping the word `namespace`,
and rejoining with `-`; in particular the class names `Namespace` and
`XmpRightsNamespace` derive `""` and `"xmp-rights"`. -/
theorem derivePrefix_pipeline :
    derivePrefix "Namespace" = "" ∧
    derivePrefix "XmpRightsNamespace" = "xmp-rights" ∧
    ∀ N : String,
      derivePrefix N =
        String.mk
          (joinHyph
            ((splitHyph
                ((subOtherWord (subFullWord N.data)).map Char.toLower)).filter
              (fun w => w != "namespace".data))) :=
  ⟨by decide, by decide, fun N => rfl⟩

/-- C3: construction fails with the `NoURI` error exactly when the class
declares no `uri`; a successful construction carries the class and an
empty store, and a failed one carries no instance at all. -/
theorem init_characterization (c : NSClass) :
    (XMPNamespace.init c = Except.error NoURI.noURI ↔ c.uri = none) ∧
    (∀ ns, XMPNamespace.init c = Except.ok ns →
      ns.cls = c ∧ ns.store = []) := by
  cases hc : c.uri with
  | none =>
    refine ⟨by simp [XMPNamespace.init, hc], ?_⟩
    intro ns h
    simp [XMPNamespace.init, hc] at h
  | some u =>
    refine ⟨by simp [XMPNamespace.init, hc], ?_⟩
    intro ns h
    simp only [XMPNamespace.init, hc] at h
    cases h
    exact ⟨rfl, rfl⟩

/-- C3 witness: a class with a `uri` constructs an instance with that
class and an empty store; the `NoURI` case at a concrete class without
one. -/
theorem init_characterization_witness :
    ((XMPNamespace.mk ⟨"DCNamespace", some "u", [], []⟩ []).cls =
        ⟨"DCNamespace", some "u", [], []⟩ ∧
      (XMPNamespace.mk ⟨"DCNamespace", some "u", [], []⟩ []).store = []) ∧
    XMPNamespace.init ⟨"DCNamespace", none, [], []⟩ =
      Except.error NoURI.noURI :=
  ⟨(init_characterization ⟨"DCNamespace", some "u", [], []⟩).2
      (XMPNamespace.mk ⟨"DCNamespace", some "u", [], []⟩ []) (by decide),
    (init_characterization ⟨"DCNamespace", none, [], []⟩).1.mpr (by decide)⟩

/-- C4: after `set(k, v)`, `get(k)` returns exactly `v`; after a
successful `delete(k)`, `get(k)` fails with `KeyNotFound`. -/
theorem get_after_set_and_delete (ns : XMPNamespace) (k : String)
    (v : PyVal) :
    (ns.setItem k v).getItem k = Except.ok v ∧
    (∀ ns', ns.delItem k = Except.ok ns' →
      ns'.getItem k = Except.error (KeyError.keyNotFound k)) := by
  refine ⟨?_, ?_⟩
  · simp [XMPNamespace.getItem, XMPNamespace.setItem, dictGet_dictSet_self]
  · intro ns' h
    unfold XMPNamespace.delItem at h
    cases hS : dictGet ns.store k with
    | none => simp [hS] at h
    | some v0 =>
      simp only [hS] at h
      cases h
      simp [XMPNamespace.getItem, dictGet_dictDel_self]

/-- C4 witness: set-then-get on a concrete instance, and delete-then-get
via the concretely computed deletion result. -/
theorem get_after_set_and_delete_witness :
    ((XMPNamespace.mk ⟨"DCNamespace", some "u", [], []⟩ []).setItem "a"
        (PyVal.int 1)).getItem "a" = Except.ok (PyVal.int 1) ∧
    (XMPNamespace.mk ⟨"DCNamespace", some "u", [], []⟩ []).getItem "a" =
      Except.error (KeyError.keyNotFound "a") :=
  ⟨(get_after_set_and_delete
      (XMPNamespace.mk ⟨"DCNamespace", some "u", [], []⟩ []) "a"
      (PyVal.int 1)).1,
    (get_after_set_and_delete
      (XMPNamespace.mk ⟨"DCNamespace", some "u", [], []⟩
        [("a", PyVal.int 1)]) "a" (PyVal.int 1)).2
      (XMPNamespace.mk ⟨"DCNamespace", some "u", [], []⟩ []) (by decide)⟩

/-- C5: a `ValueError` raised by the coercion attempt is caught and
folded into a false validity verdict: under a declared type whose
construction from the stored value fails, `__is_valid_key` and
`is_valid` return the boolean `false` rather than propagating an
error (`is_valid` is a total boolean-valued function). -/
theorem coercion_failure_folds_to_false (ns : XMPNamespace) (k : String)
    (T : PyType) (v : PyVal)
    (hT : dictGet ns.cls.types k = some T)
    (hS : dictGet ns.store k = some v)
    (hc : tryConstruct T v = Except.error PyValueError.valueError) :
    ns.isValidKey k = false ∧ ns.is_valid = false := by
  have hne : typeOf v ≠ T := by
    cases T <;> cases v <;> simp [tryConstruct, typeOf] at hc ⊢
  have hkey : ns.isValidKey k = false := by
    unfold XMPNamespace.isValidKey XMPNamespace.canConvertToCorrectType
    simp [hT, hS, hne, hc]
  refine ⟨hkey, ?_⟩
  have hall : ns.allKeysAreValid = false := by
    cases hb : ns.allKeysAreValid with
    | false => rfl
    | true =>
      rw [XMPNamespace.allKeysAreValid, List.all_eq_true] at hb
      obtain ⟨p, hp, hpk⟩ := dictGet_mem hS
      have := hb p hp
      rw [hpk, hkey] at this
      cases this
  simp [XMPNamespace.is_valid, hall]

/-- C5 witness: the declared `int` type fails to construct from the
stored string `"abc"`, and validity is the boolean `false`. -/
theorem coercion_failure_folds_to_false_witness :
    (XMPNamespace.mk ⟨"XNamespace", some "u", [("k", PyType.int)], []⟩
        [("k", PyVal.str "abc")]).isValidKey "k" = false ∧
    (XMPNamespace.mk ⟨"XNamespace", some "u", [("k", PyType.int)], []⟩
        [("k", PyVal.str "abc")]).is_valid = false :=
  coercion_failure_folds_to_false
    (XMPNamespace.mk ⟨"XNamespace", some "u", [("k", PyType.int)], []⟩
      [("k", PyVal.str "abc")])
    "k" PyType.int (PyVal.str "abc") (by decide) (by decide) (by decide)

/-- C6: `set(k, v)` is total and unconditional: it makes `get(k)` return
`v`, leaves every other key's binding unchanged, and its effect on the
store is the same whatever `types` and `required` the class declares. -/
theorem set_is_unconditional (ns : XMPNamespace) (k : String) (v : PyVal) :
    (ns.setItem k v).getItem k = Except.ok v ∧
    (∀ k', k' ≠ k → (ns.setItem k v).getItem k' = ns.getItem k') ∧
    (∀ c' : NSClass,
      ((XMPNamespace.mk c' ns.store).setItem k v).store =
        (ns.setItem k v).store) := by
  refine ⟨?_, ?_, fun c' => rfl⟩
  · simp [XMPNamespace.getItem, XMPNamespace.setItem, dictGet_dictSet_self]
  · intro k' hk'
    simp [XMPNamespace.getItem, XMPNamespace.setItem,
      dictGet_dictSet_ne ns.store k k' v hk']

/-- C6 witness: a write on a concrete instance, with the other-key frame
conjunct discharged at a distinct key. -/
theorem set_is_unconditional_witness :
    ((XMPNamespace.mk ⟨"XNamespace", some "u", [], ["b"]⟩
        [("b", PyVal.int 2)]).setItem "a" (PyVal.str "x")).getItem "a" =
      Except.ok (PyVal.str "x") ∧
    ((XMPNamespace.mk ⟨"XNamespace", some "u", [], ["b"]⟩
        [("b", PyVal.int 2)]).setItem "a" (PyVal.str "x")).getItem "b" =
      (XMPNamespace.mk ⟨"XNamespace", some "u", [], ["b"]⟩
        [("b", PyVal.int 2)]).getItem "b" :=
  ⟨(set_is_unconditional
      (XMPNamespace.mk ⟨"XNamespace", some "u", [], ["b"]⟩
        [("b", PyVal.int 2)]) "a" (PyVal.str "x")).1,
    (set_is_unconditional
      (XMPNamespace.mk ⟨"XNamespace", some "u", [], ["b"]⟩
        [("b", PyVal.int 2)]) "a" (PyVal.str "x")).2.1 "b" (by decide)⟩

/-- C7 counterexample: key-style lookup of an unrecognized name fails
with the `KeyError` condition carrying only the key, not with the
attribute-not-found condition the claim states. -/
theorem xmp_key_lookup_is_keyerror :
    xmpGetItem "bogus" = Except.error (XMPLookupError.keyError "bogus") ∧
    isAttributeError (xmpGetItem "bogus") = false := by
  decide

/-- C7 amended: every recognized default name answers the empty sequence
under both lookup styles; an unrecognized name fails under key-style
lookup with `KeyError` carrying the key, and under attribute-style
lookup with `AttributeError` whose message is built from the qualified
type name and the requested name. -/
theorem xmp_lookup_behaviour (name : String) :
    (DEFAULT_XMP_NAMESPACES.contains name = true →
      xmpGetItem name = Except.ok [] ∧
      ∀ module, xmpGetAttr module name = Except.ok []) ∧
    (DEFAULT_XMP_NAMESPACES.contains name = false →
      xmpGetItem name = Except.error (XMPLookupError.keyError name) ∧
      ∀ module,
        xmpGetAttr module name =
          Except.error (XMPLookupError.attributeError
            (noAttrMessage module name)) ∧
        noAttrMessage module name =
          pyReprStr (module ++ "." ++ "XMP") ++
            " object has no attribute " ++ pyReprStr name) := by
  refine ⟨?_, ?_⟩
  · intro h
    have hm : name ∈ DEFAULT_XMP_NAMESPACES := by simpa using h
    refine ⟨by simp [xmpGetItem, hm], fun module => ?_⟩
    simp [xmpGetAttr, xmpGetItem, hm]
  · intro h
    have hm : name ∉ DEFAULT_XMP_NAMESPACES := by simpa using h
    refine ⟨by simp [xmpGetItem, hm], fun module => ⟨?_, rfl⟩⟩
    simp [xmpGetAttr, xmpGetItem, hm]

/-- C7 witness: the recognized name `dc` and the unrecognized name
`bogus` under a concrete module name. -/
theorem xmp_lookup_behaviour_witness :
    xmpGetItem "dc" = Except.ok [] ∧
    xmpGetAttr "blister.xmp" "bogus" =
      Except.error (XMPLookupError.attributeError
        (noAttrMessage "blister.xmp" "bogus")) :=
  ⟨((xmp_lookup_behaviour "dc").1 (by decide)).1,
    (((xmp_lookup_behaviour "bogus").2 (by decide)).2 "blister.xmp").1⟩

/-- C8: the class name `ExifEXNamespace` derives the prefix `exif-ex`:
rule B separates `X-Namespace`, rule A then separates `f-EX`, and the
word `namespace` is dropped. -/
theorem exifEX_derivation : derivePrefix "ExifEXNamespace" = "exif-ex" := by
  decide

/-- C9: `is_valid()` is read-only: the instance after the call is the
instance before it, `get(k)` is unchanged, and iterating the call any
number of times still leaves the instance fixed. -/
theorem is_valid_preserves_store (ns : XMPNamespace) (n : Nat)
    (k : String) :
    (ns.runOp NSOp.validOp).2 = ns ∧
    ((fun s => (XMPNamespace.runOp s NSOp.validOp).2)^[n] ns) = ns ∧
    ((ns.runOp NSOp.validOp).2).getItem k = ns.getItem k :=
  ⟨rfl, Function.iterate_fixed rfl n, rfl⟩

/-- C10: on a key absent from the store, `delete(k)` and `get(k)` each
fail with `KeyNotFound` and return the instance exactly as it was, so
the length and every stored binding are unchanged. -/
theorem absent_key_failures_frame (ns : XMPNamespace) (k : String)
    (h : dictGet ns.store k = none) :
    ns.runOp (NSOp.delOp k) = (Except.error (KeyError.keyNotFound k), ns) ∧
    ns.runOp (NSOp.getOp k) = (Except.error (KeyError.keyNotFound k), ns) ∧
    (ns.runOp (NSOp.delOp k)).2.store = ns.store ∧
    (ns.runOp (NSOp.getOp k)).2.store.length = ns.store.length := by
  have hdel :
      ns.runOp (NSOp.delOp k) =
        (Except.error (KeyError.keyNotFound k), ns) := by
    simp [XMPNamespace.runOp, XMPNamespace.delItem, h]
  have hget :
      ns.runOp (NSOp.getOp k) =
        (Except.error (KeyError.keyNotFound k), ns) := by
    simp [XMPNamespace.runOp, XMPNamespace.getItem, h]
  exact ⟨hdel, hget, by rw [hdel], by rw [hget]⟩

/-- C10 witness: both failing operations at an absent key of a concrete
non-empty instance. -/
theorem absent_key_failures_frame_witness :
    (XMPNamespace.mk ⟨"XNamespace", some "u", [], []⟩
        [("a", PyVal.int 1)]).runOp (NSOp.delOp "b") =
      (Except.error (KeyError.keyNotFound "b"),
        XMPNamespace.mk ⟨"XNamespace", some "u", [], []⟩
          [("a", PyVal.int 1)]) ∧
    (XMPNamespace.mk ⟨"XNamespace", some "u", [], []⟩
        [("a", PyVal.int 1)]).runOp (NSOp.getOp "b") =
      (Except.error (KeyError.keyNotFound "b"),
        XMPNamespace.mk ⟨"XNamespace", some "u", [], []⟩
          [("a", PyVal.int 1)]) :=
  ⟨(absent_key_failures_frame
      (XMPNamespace.mk ⟨"XNamespace", some "u", [], []⟩
        [("a", PyVal.int 1)]) "b" (by decide)).1,
    (absent_key_failures_frame
      (XMPNamespace.mk ⟨"XNamespace", some "u", [], []⟩
        [("a", PyVal.int 1)]) "b" (by decide)).2.1⟩
